import Mathlib

/-!
# CodingLibCPP: the C boundary of the codec and its two sample callers

The repository consists of the header `source/codingLib.h`, which declares
`encode_string`, `decode_string` and `free_string`, and of two sample programs,
`tests/test1.cpp` (console) and `tests/test2.cpp` (file writing).  The bodies of
the three library functions are not part of the sources, so the library is a
parameter of the embedding: every statement about a sample program is proved
for an arbitrary library, with arbitrary hidden state.

The sample programs are embedded statement by statement as transformers of a
`World`: the hidden state of the library together with the trace of the
externally visible actions performed so far.
-/

namespace CodingLibCPP

/-- A value of type `const char*`: `none` is the null pointer, `some s` points to
the NUL-terminated text `s`. -/
abbrev CStr := Option String

/-- The three functions declared in `source/codingLib.h`.  Only the declarations
are in the sources; `σ` is whatever state the library keeps between calls, so a
library may allocate, fail, or depend on earlier calls.  A call is taken to
return to its caller with a pointer value. -/
structure CodingLib (σ : Type) where
  /-- Models `const char* encode_string(const char* input);`. -/
  encode_string : CStr → σ → CStr × σ
  /-- Models `const char* decode_string(const char* input);`. -/
  decode_string : CStr → σ → CStr × σ
  /-- Models `void free_string(char* str);`. -/
  free_string : CStr → σ → σ

/-- The externally visible actions of the sample programs.  An event records that
a statement was executed with the given operands; what a stream then outputs
(for instance when the operand of an insertion is the null pointer) is not
modelled. -/
inductive Event where
  /-- A call `encode_string(input)` that returned `result`. -/
  | encode_string (input result : CStr)
  /-- A call `decode_string(input)` that returned `result`. -/
  | decode_string (input result : CStr)
  /-- A call `free_string(str)`. -/
  | free_string (str : CStr)
  /-- The statement `std::cout << "text"` for a literal. -/
  | cout (text : String)
  /-- The statement `std::cout << p` for a `const char*` value `p`. -/
  | cout_cstr (p : CStr)
  /-- The statement `std::cout << std::endl`. -/
  | cout_endl
  /-- The statement `std::cerr << "text"` for a literal. -/
  | cerr (text : String)
  /-- The statement `std::cerr << std::endl`. -/
  | cerr_endl
  /-- The statement `std::getline(std::cin, input)`, which read `line`. -/
  | getline (line : String)
  /-- The construction `std::ofstream out(path)`. -/
  | ofstream_open (path : String)
  /-- The statement `out << p` on the stream opened at `path`. -/
  | file_put (path : String) (p : CStr)
  /-- The statement `out << std::endl` on the stream opened at `path`. -/
  | file_endl (path : String)
  /-- The statement `out.close()` on the stream opened at `path`. -/
  | file_close (path : String)
  deriving DecidableEq

/-- What a sample program cannot control: the line waiting on standard input and
which paths can be opened for writing. -/
structure Env where
  stdin_line : String
  can_open : String → Bool

/-- The state a sample program runs in. -/
structure World (σ : Type) where
  lib : σ
  trace : List Event

variable {σ : Type}

/-- Appends one action to the trace. -/
def emit (e : Event) (w : World σ) : World σ :=
  { w with trace := w.trace ++ [e] }

/-- A call of the library's `encode_string` from a sample program. -/
def call_encode_string (L : CodingLib σ) (input : CStr) (w : World σ) : CStr × World σ :=
  let r := L.encode_string input w.lib
  (r.1, { lib := r.2, trace := w.trace ++ [Event.encode_string input r.1] })

/-- A call of the library's `decode_string` from a sample program. -/
def call_decode_string (L : CodingLib σ) (input : CStr) (w : World σ) : CStr × World σ :=
  let r := L.decode_string input w.lib
  (r.1, { lib := r.2, trace := w.trace ++ [Event.decode_string input r.1] })

/-- The view `std::string::c_str()` gives a callee that reads up to the
terminator: the characters before the first NUL. -/
def c_str (s : String) : CStr :=
  some (String.mk (s.toList.takeWhile (fun c => c != Char.ofNat 0)))

/-- The world in which `main` starts: the library in state `s`, nothing done yet. -/
def start (s : σ) : World σ :=
  { lib := s, trace := [] }

namespace test1

/-- The function `main` of `tests/test1.cpp`. -/
def main (L : CodingLib σ) (s : σ) : Int × World σ :=
  -- const char* encoded = encode_string("Hello, world!");
  let (encoded, w) := call_encode_string L (some "Hello, world!") (start s)
  -- std::cout << "Encoded: " << encoded << std::endl;
  let w := w |> emit (.cout "Encoded: ") |> emit (.cout_cstr encoded) |> emit .cout_endl
  -- const char* decoded = decode_string(encoded);
  let (decoded, w) := call_decode_string L encoded w
  -- std::cout << "Decoded: " << decoded << std::endl;
  let w := w |> emit (.cout "Decoded: ") |> emit (.cout_cstr decoded) |> emit .cout_endl
  -- return 0;
  (0, w)

end test1

namespace test2

/-- The function `writeFile` of `tests/test2.cpp`. -/
def writeFile (env : Env) (input : CStr) (path : String) (w : World σ) : World σ :=
  -- std::ofstream out(path);
  let w := emit (.ofstream_open path) w
  -- if (out.is_open())
  if env.can_open path then
    -- out << input << std::endl; out.close();
    -- std::cout << "File written successfully!" << std::endl;
    w |> emit (.file_put path input) |> emit (.file_endl path) |> emit (.file_close path)
      |> emit (.cout "File written successfully!") |> emit .cout_endl
  else
    -- std::cerr << "Error: Could not open file for writing!" << std::endl;
    w |> emit (.cerr "Error: Could not open file for writing!") |> emit .cerr_endl

/-- The function `main` of `tests/test2.cpp`. -/
def main (L : CodingLib σ) (env : Env) (s : σ) : Int × World σ :=
  -- std::string input; std::cout << "Enter text: ";
  let w := emit (.cout "Enter text: ") (start s)
  -- std::getline(std::cin, input);
  let input := env.stdin_line
  let w := emit (.getline input) w
  -- const char* encoded = encode_string(input.c_str());
  let (encoded, w) := call_encode_string L (c_str input) w
  -- writeFile(encoded, "./output/output.txt");
  let w := writeFile env encoded "./output/output.txt" w
  -- return 0;
  (0, w)

end test2

/-- A library whose every call fails: both codec functions return the null
pointer. -/
def failingLib : CodingLib Unit where
  encode_string := fun _ s => (none, s)
  decode_string := fun _ s => (none, s)
  free_string := fun _ s => s

/-- A library that hands back a copy of its argument. -/
def copyLib : CodingLib Unit where
  encode_string := fun p s => (p, s)
  decode_string := fun p s => (p, s)
  free_string := fun _ s => s

/-- An environment with the line `abc` on standard input in which every path
can be opened. -/
def sampleEnv : Env where
  stdin_line := "abc"
  can_open := fun _ => true

/-! ## The traces of the two sample programs -/

/-- The console sample performs the same eight actions for every library. -/
theorem test1_trace (L : CodingLib σ) (s : σ) :
    (test1.main L s).2.trace =
      [ Event.encode_string (some "Hello, world!") (L.encode_string (some "Hello, world!") s).1,
        Event.cout "Encoded: ",
        Event.cout_cstr (L.encode_string (some "Hello, world!") s).1,
        Event.cout_endl,
        Event.decode_string (L.encode_string (some "Hello, world!") s).1
          (L.decode_string (L.encode_string (some "Hello, world!") s).1
            (L.encode_string (some "Hello, world!") s).2).1,
        Event.cout "Decoded: ",
        Event.cout_cstr
          (L.decode_string (L.encode_string (some "Hello, world!") s).1
            (L.encode_string (some "Hello, world!") s).2).1,
        Event.cout_endl ] := by
  rfl

/-- The file-writing sample always reads a line, encodes it and opens the output
file; what follows depends only on whether the file could be opened. -/
theorem test2_trace (L : CodingLib σ) (env : Env) (s : σ) :
    (test2.main L env s).2.trace =
      [ Event.cout "Enter text: ",
        Event.getline env.stdin_line,
        Event.encode_string (c_str env.stdin_line) (L.encode_string (c_str env.stdin_line) s).1,
        Event.ofstream_open "./output/output.txt" ] ++
      (if env.can_open "./output/output.txt" then
        [ Event.file_put "./output/output.txt" (L.encode_string (c_str env.stdin_line) s).1,
          Event.file_endl "./output/output.txt",
          Event.file_close "./output/output.txt",
          Event.cout "File written successfully!",
          Event.cout_endl ]
      else
        [ Event.cerr "Error: Could not open file for writing!",
          Event.cerr_endl ]) := by
  cases h : env.can_open "./output/output.txt" <;>
    simp [test2.main, test2.writeFile, call_encode_string, emit, start] <;>
    simp_all

/-- The library state in which the console sample returns is the one left by its
two codec calls. -/
theorem test1_lib (L : CodingLib σ) (s : σ) :
    (test1.main L s).2.lib =
      (L.decode_string (L.encode_string (some "Hello, world!") s).1
        (L.encode_string (some "Hello, world!") s).2).2 := by
  rfl

/-- The library state in which the file-writing sample returns is the one left by
its call of `encode_string`. -/
theorem test2_lib (L : CodingLib σ) (env : Env) (s : σ) :
    (test2.main L env s).2.lib = (L.encode_string (c_str env.stdin_line) s).2 := by
  cases h : env.can_open "./output/output.txt" <;>
    simp [test2.main, test2.writeFile, call_encode_string, emit, start] <;>
    simp_all

/-! ## The console and file-writing samples when the codec fails -/

/-- C9 (counterexample).  With a library whose `encode_string` returns the null
pointer, the file-writing sample still runs `writeFile` on that result: the
stream is constructed on the output path, the statement `out << input` is
executed with the null result, the success message is sent to `std::cout` and no
statement touches `std::cerr`; the console sample still executes
`std::cout << encoded` with the null result and calls `decode_string` on it. -/
theorem sample_callers_use_failed_result :
    (failingLib.encode_string (c_str sampleEnv.stdin_line) ()).1 = none ∧
    (test2.main failingLib sampleEnv ()).2.trace =
      [ Event.cout "Enter text: ",
        Event.getline "abc",
        Event.encode_string (some "abc") none,
        Event.ofstream_open "./output/output.txt",
        Event.file_put "./output/output.txt" none,
        Event.file_endl "./output/output.txt",
        Event.file_close "./output/output.txt",
        Event.cout "File written successfully!",
        Event.cout_endl ] ∧
    (failingLib.encode_string (some "Hello, world!") ()).1 = none ∧
    (test1.main failingLib ()).2.trace =
      [ Event.encode_string (some "Hello, world!") none,
        Event.cout "Encoded: ",
        Event.cout_cstr none,
        Event.cout_endl,
        Event.decode_string none none,
        Event.cout "Decoded: ",
        Event.cout_cstr none,
        Event.cout_endl ] := by
  refine ⟨rfl, ?_, rfl, rfl⟩
  rw [test2_trace]
  simp [failingLib, sampleEnv, c_str]

/-- C9 (amended).  No statement of either sample depends on what `encode_string`
returned.  For every library, whatever value `encode_string` returns (a failure
result included), the file-writing sample executes exactly these statements and
returns 0: the prompt on `std::cout`, `getline`, the call of `encode_string`, the
construction of the stream on the output path, and then, if the stream is open,
`out << encoded`, `out << std::endl`, `out.close()` and the success message on
`std::cout`, otherwise the message about the file on `std::cerr`; the console
sample executes exactly these statements and returns 0: the call of
`encode_string`, `std::cout << "Encoded: " << encoded << std::endl`, the call of
`decode_string` on that same value, and
`std::cout << "Decoded: " << decoded << std::endl`.  No other statement is
executed, so none reports a codec failure. -/
theorem sample_callers_use_codec_result_unconditionally
    (L : CodingLib σ) (env : Env) (s : σ) :
    (test2.main L env s).2.trace =
      [ Event.cout "Enter text: ",
        Event.getline env.stdin_line,
        Event.encode_string (c_str env.stdin_line) (L.encode_string (c_str env.stdin_line) s).1,
        Event.ofstream_open "./output/output.txt" ] ++
      (if env.can_open "./output/output.txt" then
        [ Event.file_put "./output/output.txt" (L.encode_string (c_str env.stdin_line) s).1,
          Event.file_endl "./output/output.txt",
          Event.file_close "./output/output.txt",
          Event.cout "File written successfully!",
          Event.cout_endl ]
      else
        [ Event.cerr "Error: Could not open file for writing!",
          Event.cerr_endl ]) ∧
    (test2.main L env s).1 = 0 ∧
    (test1.main L s).2.trace =
      [ Event.encode_string (some "Hello, world!") (L.encode_string (some "Hello, world!") s).1,
        Event.cout "Encoded: ",
        Event.cout_cstr (L.encode_string (some "Hello, world!") s).1,
        Event.cout_endl,
        Event.decode_string (L.encode_string (some "Hello, world!") s).1
          (L.decode_string (L.encode_string (some "Hello, world!") s).1
            (L.encode_string (some "Hello, world!") s).2).1,
        Event.cout "Decoded: ",
        Event.cout_cstr
          (L.decode_string (L.encode_string (some "Hello, world!") s).1
            (L.encode_string (some "Hello, world!") s).2).1,
        Event.cout_endl ] ∧
    (test1.main L s).1 = 0 :=
  ⟨test2_trace L env s, rfl, test1_trace L s, rfl⟩

/-! ## The samples and `free_string` -/

/-- C10 (counterexample).  With a library that returns a copy of its argument,
the console sample receives `Hello, world!` from `encode_string` and the
file-writing sample receives `abc`, and neither value is ever passed to
`free_string`: the number of releases is 0, not 1. -/
theorem sample_callers_release_nothing :
    Event.encode_string (some "Hello, world!") (some "Hello, world!")
        ∈ (test1.main copyLib ()).2.trace ∧
    List.count (Event.free_string (some "Hello, world!")) (test1.main copyLib ()).2.trace = 0 ∧
    Event.encode_string (some "abc") (some "abc")
        ∈ (test2.main copyLib sampleEnv ()).2.trace ∧
    List.count (Event.free_string (some "abc")) (test2.main copyLib sampleEnv ()).2.trace = 0 := by
  rw [test1_trace, test2_trace]
  simp [copyLib, sampleEnv, c_str, List.count_eq_zero]

/-- C10 (amended).  Neither sample calls `free_string`.  For every library and
every pointer value, the number of times either `main` passes that value to
`free_string` is 0, hence at most one and never after a release; each `main`
returns 0 with the library in the state left by its last codec call, so every
value it received is still unreleased. -/
theorem sample_callers_never_call_free_string
    (L : CodingLib σ) (env : Env) (s : σ) (p : CStr) :
    List.count (Event.free_string p) (test1.main L s).2.trace = 0 ∧
    List.count (Event.free_string p) (test2.main L env s).2.trace = 0 ∧
    (test1.main L s).1 = 0 ∧
    (test2.main L env s).1 = 0 ∧
    (test1.main L s).2.lib =
      (L.decode_string (L.encode_string (some "Hello, world!") s).1
        (L.encode_string (some "Hello, world!") s).2).2 ∧
    (test2.main L env s).2.lib = (L.encode_string (c_str env.stdin_line) s).2 := by
  refine ⟨?_, ?_, rfl, rfl, test1_lib L s, test2_lib L env s⟩
  · rw [List.count_eq_zero, test1_trace]
    simp
  · rw [List.count_eq_zero, test2_trace]
    cases h : env.can_open "./output/output.txt" <;> simp

end CodingLibCPP
